import Mathlib

/-!
Verification of the Lecturer Sentiment Analyzer
(`lecturer_sentiment_analyzer.py`).

The development shallowly embeds the analyzer: real-valued quantities
become rationals, Python strings become Lean strings, the external
collaborators (the NLTK tokenizer `word_tokenize`, the stopword corpus,
the TextBlob sentiment scorer, the speech-recognition service and the
file system) become explicit parameters, and the mutable `self.results`
dictionary becomes an explicit `Results` record threaded through the
functions.
-/

namespace LSA

/-- Set of characters stripped by Python `str.strip()` with no argument
(`string.whitespace`). -/
def pyWhitespace : List Char := [' ', '\t', '\n', '\r', '\x0b', '\x0c']

/-- Python `s.strip(chars)`: remove characters of `chars` from BOTH ends
of the string (leading and trailing). -/
def pyStripChars (chars : List Char) (s : String) : String :=
  String.mk (((s.toList.dropWhile (fun c => chars.contains c)).reverse.dropWhile
    (fun c => chars.contains c)).reverse)

/-- Removal of characters of `chars` from the trailing end only.  This is
not what Python `str.strip` does; it is the rule the specification
describes for filler matching ("stripping trailing punctuation"), kept
here to compare against the code. -/
def stripTrailingChars (chars : List Char) (s : String) : String :=
  String.mk ((s.toList.reverse.dropWhile (fun c => chars.contains c)).reverse)

/-- Python `s.strip()` (whitespace on both ends). -/
def pyStrip (s : String) : String := pyStripChars pyWhitespace s

/-- Python `s.lower()` (ASCII case folding suffices for this model). -/
def pyLower (s : String) : String :=
  String.mk (s.toList.map Char.toLower)

/-- Python `s.isalpha()`: non-empty and every character alphabetic. -/
def pyIsAlpha (s : String) : Bool :=
  !s.toList.isEmpty && s.toList.all Char.isAlpha

/-- Split a character list at every character satisfying `p`, keeping
empty pieces, as Python `str.split(sep)` does between separators.  The
result is always non-empty. -/
def splitChars (p : Char → Bool) : List Char → List (List Char)
  | [] => [[]]
  | c :: cs =>
    match splitChars p cs with
    | [] => if p c then [[], []] else [[c]]
    | t :: ts => if p c then [] :: t :: ts else (c :: t) :: ts

/-- Python `s.split()` with no argument: split on whitespace and drop
empty pieces. -/
def pySplitWs (s : String) : List String :=
  ((splitChars (fun c => pyWhitespace.contains c) s.toList).map
    String.mk).filter (fun t => t ≠ "")

/-- Python `s.split(sep)` for a single-character separator `sep`: split
at every occurrence, keeping empty pieces. -/
def pySplitChar (sep : Char) (s : String) : List String :=
  (splitChars (fun c => c == sep) s.toList).map String.mk

/-- Python `s.count(c)` for a single-character needle. -/
def pyCountChar (c : Char) (s : String) : Nat := s.toList.count c

/-- The punctuation characters stripped around candidate filler tokens,
from `word.lower().strip('.,!?')`. -/
def fillerStripChars : List Char := ['.', ',', '!', '?']

/-- The fixed filler lexicon, `self.filler_words`
(`lecturer_sentiment_analyzer.py`, line 50). -/
def filler_words : List String :=
  ["um", "uh", "like", "you know", "so", "actually", "basically",
   "literally", "well", "okay"]

/-- The fallback stopword list installed when the NLTK corpus is
unavailable (`__init__`, lines 58-63).  The theorems quantify over an
arbitrary stopword list, of which this is one instance. -/
def fallback_stop_words : List String :=
  ["the", "a", "an", "and", "or", "but", "in", "on", "at", "to", "for",
   "of", "with", "by", "is", "are", "was", "were", "be", "been", "have",
   "has", "had", "do", "does", "did", "will", "would", "could", "should",
   "i", "you", "he", "she", "it", "we", "they", "me", "him", "her", "us",
   "them"]

/-- The metrics dictionary stored in `self.results['metrics']`. -/
structure Metrics where
  word_count : Nat
  speaking_rate : ℚ
  filler_count : Nat
  filler_ratio : ℚ
  avg_sentence_length : ℚ
  vocabulary_richness : ℚ
  duration_seconds : ℚ
  sentence_count : Nat
  unique_words : Nat
  content_words : Nat
deriving DecidableEq, Inhabited

/-- The sentiment dictionary stored in `self.results['sentiment']`:
polarity, subjectivity, and the category string. -/
structure SentimentR where
  polarity : ℚ
  subjectivity : ℚ
  category : String
deriving DecidableEq, Inhabited

/-- The `live_sentiment` dictionary written by `analyze_live_sentiment`. -/
structure LiveSentiment where
  category : String
  polarity : ℚ
deriving DecidableEq, Inhabited

/-- The `live_metrics` dictionary written by `analyze_live_sentiment`. -/
structure LiveMetrics where
  word_count : Nat
  speaking_rate : ℚ
  filler_count : Nat
  filler_ratio : ℚ
  session_time : ℚ
deriving DecidableEq, Inhabited

/-- Test whether a token counts as a filler word:
`word.lower().strip('.,!?') in self.filler_words` (lines 215 and 311).
Note that Python `strip` removes the punctuation from both ends. -/
def isFillerToken (w : String) : Bool :=
  filler_words.contains (pyStripChars fillerStripChars (pyLower w))

/-- Modelled from the spec: the FillerLexicon membership rule as the
specification words it, with only TRAILING punctuation stripped
("case-insensitive exact match after stripping trailing punctuation
(.,!?)").  Defined solely to compare with `isFillerToken`, which embeds
the code. -/
def specFillerToken (w : String) : Bool :=
  filler_words.contains (stripTrailingChars fillerStripChars (pyLower w))

/-- `safe_tokenize` (lines 377-383): lowercase the text and hand it to
the tokenizer.  The external `word_tokenize` is the parameter
`tokenize`; its whitespace-splitting fallback is one possible value of
that parameter. -/
def safe_tokenize (tokenize : String → List String) (text : String) :
    List String :=
  tokenize (pyLower text)

/-- `calculate_metrics` (lines 294-338).  `tokenize` stands for the
external NLTK tokenizer, `stop_words` for the stopword set, and
`elapsed` for `time.time() - self.start_time` when `self.start_time` is
set (`none` when it is unset, i.e. no live session was started). -/
def calculate_metrics (tokenize : String → List String)
    (stop_words : List String) (elapsed : Option ℚ) (text : String) :
    Metrics :=
  let words := safe_tokenize tokenize text
  let word_count := words.length
  let estimated_duration :=
    match elapsed with
    | some actual_duration => max actual_duration ((word_count : ℚ) / (5/2))
    | none => max 60 ((word_count : ℚ) / (5/2))
  let speaking_rate :=
    if estimated_duration > 0 then ((word_count : ℚ) / estimated_duration) * 60
    else 0
  let filler_count := words.countP isFillerToken
  let filler_ratio :=
    if word_count > 0 then (filler_count : ℚ) / (word_count : ℚ) else 0
  let sentences := ((pySplitChar '.' text).map pyStrip).filter (fun s => s ≠ "")
  let sentence_count := max 1 sentences.length
  let avg_sentence_length := (word_count : ℚ) / (sentence_count : ℚ)
  let content_words :=
    (words.filter (fun w =>
      !(stop_words.contains (pyLower w)) && pyIsAlpha w
        && decide (w.length > 2))).map pyLower
  let content_word_count := content_words.length
  let unique_words := content_words.dedup.length
  let vocabulary_richness :=
    if content_word_count > 0 then (unique_words : ℚ) / (content_word_count : ℚ)
    else 0
  { word_count := word_count
    speaking_rate := speaking_rate
    filler_count := filler_count
    filler_ratio := filler_ratio
    avg_sentence_length := avg_sentence_length
    vocabulary_richness := vocabulary_richness
    duration_seconds := estimated_duration
    sentence_count := sentence_count
    unique_words := unique_words
    content_words := content_word_count }

/-- `calculate_basic_metrics` (lines 344-361), the fallback used when the
full analysis is skipped or fails.  (The nested `except` branch of lines
362-375 guards against failures of these primitive operations and is
unreachable in the pure model.) -/
def calculate_basic_metrics (text : String) : Metrics :=
  let words := if text ≠ "" then pySplitWs text else []
  let word_count := words.length
  { word_count := word_count
    speaking_rate := 120
    filler_count := 0
    filler_ratio := 0
    avg_sentence_length := 15
    vocabulary_richness := 1/2
    duration_seconds := 60
    sentence_count := if text ≠ "" then max 1 (pyCountChar '.' text) else 1
    unique_words := if words ≠ [] then words.dedup.length else 0
    content_words := word_count }

/-- The feedback lines appended by `generate_feedback` (lines 385-460)
and by `create_error_results` (lines 541-542), one constructor per
source message template, carrying the interpolated values.  The message
texts, in constructor order:
`noMetrics`: "Analysis completed, but detailed metrics are not available.";
`toneNegative`: "🔴 Your tone appears somewhat negative. Consider using
more positive and encouraging language.";
`toneNeutral`: "🟡 Your tone is quite neutral. Adding more enthusiasm
could increase engagement.";
`tonePositive`: "🟢 Your positive tone creates an encouraging learning
environment.";
`paceTooFast`: "⚡ Speaking rate: R wpm - Too fast! Slow down for
clarity.";
`paceTooSlow`: "🐌 Speaking rate: R wpm - Too slow. Increase pace to
maintain attention.";
`paceBalanced`: "✅ Speaking rate: R wpm - Well-balanced pace.";
`fillerHigh`: "🚨 High filler word usage: P% (N times)";
`fillerModerate`: "⚠️ Moderate filler words: P% - Room for improvement";
`fillerFew`: "✨ Excellent! Very few filler words used.";
`vocabMoreVariety`: "📚 Consider using more varied vocabulary to
maintain interest.";
`vocabRich`: "🎓 Rich vocabulary! Ensure it matches your audience
level.";
`vocabGood`: "📖 Good vocabulary variety and accessibility.";
`sessionSummary`: "📊 Session Summary: N words in M minutes";
`closingSuccess`: "🌟 Great job! You’re demonstrating strong
communication skills.";
`closingPractice`: "💪 Keep practicing! Small improvements make a big
difference.";
`analysisError`: "❌ Analysis error: MSG";
`checkAudioFile`: "Please check your audio file and try again." -/
inductive FLine where
  | noMetrics
  | toneNegative
  | toneNeutral
  | tonePositive
  | paceTooFast (rate : ℚ)
  | paceTooSlow (rate : ℚ)
  | paceBalanced (rate : ℚ)
  | fillerHigh (ratio : ℚ) (count : Nat)
  | fillerModerate (ratio : ℚ)
  | fillerFew
  | vocabMoreVariety
  | vocabRich
  | vocabGood
  | sessionSummary (word_count : Nat) (duration : ℚ)
  | closingSuccess
  | closingPractice
  | analysisError (msg : String)
  | checkAudioFile
deriving DecidableEq

/-- The marker test of line 450, `"🟢" in f or "✅" in f or "✨" in f`:
of all the message templates listed at `FLine`, exactly the
positive-tone line (🟢), the balanced-pace line (✅) and the
few-fillers line (✨) contain one of these characters (the interpolated
values are decimal numbers and never do). -/
def hasAffirmMarker : FLine → Bool
  | .tonePositive => true
  | .paceBalanced _ => true
  | .fillerFew => true
  | _ => false

/-- The feedback dimension a line belongs to, following the fixed
append order of `generate_feedback`. -/
inductive Dim where
  | sentiment
  | pace
  | filler
  | vocabulary
  | summary
  | closing
  | other
deriving DecidableEq

/-- Dimension of each feedback line. -/
def lineDim : FLine → Dim
  | .toneNegative => .sentiment
  | .toneNeutral => .sentiment
  | .tonePositive => .sentiment
  | .paceTooFast _ => .pace
  | .paceTooSlow _ => .pace
  | .paceBalanced _ => .pace
  | .fillerHigh _ _ => .filler
  | .fillerModerate _ => .filler
  | .fillerFew => .filler
  | .vocabMoreVariety => .vocabulary
  | .vocabRich => .vocabulary
  | .vocabGood => .vocabulary
  | .sessionSummary _ _ => .summary
  | .closingSuccess => .closing
  | .closingPractice => .closing
  | _ => .other

/-- The session result record `self.results`: the mutable dictionary
created in `__init__` (lines 65-70), with the optional `live_sentiment`
and `live_metrics` entries added by `analyze_live_sentiment`.  An
absent or empty dictionary entry is `none`. -/
structure Results where
  transcript : String
  sentiment : Option SentimentR
  metrics : Option Metrics
  feedback : List FLine
  live_sentiment : Option LiveSentiment
  live_metrics : Option LiveMetrics
deriving DecidableEq

/-- The fresh result record of `__init__` (lines 65-70). -/
def initial_results : Results :=
  { transcript := ""
    sentiment := none
    metrics := none
    feedback := []
    live_sentiment := none
    live_metrics := none }

/-- The neutral default sentiment
`(polarity 0.0, subjectivity 0.5, category Neutral)` written on short
input (lines 248-252), on backend failure (lines 286-290) and in the
error result (line 534). -/
def neutral_sentiment : SentimentR :=
  { polarity := 0, subjectivity := 1/2, category := "Neutral" }

/-- The all-zero metrics of `create_error_results` (lines 535-540). -/
def error_metrics : Metrics :=
  { word_count := 0
    speaking_rate := 0
    filler_count := 0
    filler_ratio := 0
    avg_sentence_length := 0
    vocabulary_richness := 0
    duration_seconds := 0
    sentence_count := 0
    unique_words := 0
    content_words := 0 }

/-- `create_error_results` (lines 530-543). -/
def create_error_results (error_msg : String) : Results :=
  { transcript := "Analysis failed: " ++ error_msg
    sentiment := some neutral_sentiment
    metrics := some error_metrics
    feedback := [.analysisError error_msg, .checkAudioFile]
    live_sentiment := none
    live_metrics := none }

/-- `analyze_sentiment` (lines 241-292).  `blob` stands for the external
TextBlob scorer, returning (polarity, subjectivity); `textArg` is the
optional `text` argument (defaulting to the stored transcript).  In the
short-text branch the code passes `text or ""` to the basic metrics,
which as a string equals `text` itself (when `text` is falsy it is the
empty string).  The `except` branch around the backend (lines 284-292)
is unreachable for a total `blob`. -/
def analyze_sentiment (blob : String → ℚ × ℚ)
    (tokenize : String → List String) (stop_words : List String)
    (elapsed : Option ℚ) (results : Results) (textArg : Option String) :
    Results :=
  let text := match textArg with | some t => t | none => results.transcript
  if text = "" ∨ (pyStrip text).length < 5 then
    { results with
        sentiment := some neutral_sentiment
        metrics := some (calculate_basic_metrics text) }
  else
    let sentiment_polarity := (blob text).1
    let sentiment_subjectivity := (blob text).2
    let sentiment_category :=
      if sentiment_polarity > 1/10 then "Positive"
      else if sentiment_polarity < -(1/10) then "Negative"
      else "Neutral"
    { results with
        sentiment := some
          { polarity := sentiment_polarity
            subjectivity := sentiment_subjectivity
            category := sentiment_category }
        metrics := some (calculate_metrics tokenize stop_words elapsed text) }

/-- `analyze_live_sentiment` (lines 192-239).  `elapsedArg` models
`time.time() - self.start_time` when `self.start_time` is set, `none`
when it is unset (in which case the code uses `1`). -/
def analyze_live_sentiment (blob : String → ℚ × ℚ)
    (tokenize : String → List String) (elapsedArg : Option ℚ)
    (live_transcript : String) (results : Results) : Results :=
  if pyStrip live_transcript = "" then results
  else
    let sentiment_polarity := (blob live_transcript).1
    let sentiment_category :=
      if sentiment_polarity > 1/10 then "Positive"
      else if sentiment_polarity < -(1/10) then "Negative"
      else "Neutral"
    let words := safe_tokenize tokenize live_transcript
    let word_count := words.length
    let elapsed_time := match elapsedArg with | some e => e | none => 1
    let speaking_rate :=
      if elapsed_time > 0 then ((word_count : ℚ) / elapsed_time) * 60 else 0
    let filler_count := words.countP isFillerToken
    let filler_ratio :=
      if word_count > 0 then (filler_count : ℚ) / (word_count : ℚ) else 0
    { results with
        live_sentiment := some
          { category := sentiment_category, polarity := sentiment_polarity }
        live_metrics := some
          { word_count := word_count
            speaking_rate := speaking_rate
            filler_count := filler_count
            filler_ratio := filler_ratio
            session_time := elapsed_time } }

/-- `generate_feedback` (lines 385-460), the pure core mapping the
stored sentiment and metrics to the ordered feedback lines.  With a
metrics record present, the dictionary defaults of lines 400-445 never
apply; the `except` branch of lines 455-457 is unreachable in the pure
model. -/
def generate_feedback (sentiment : Option SentimentR)
    (metrics : Option Metrics) : List FLine :=
  match metrics with
  | none => [.noMetrics]
  | some m =>
    let sentiment_category :=
      match sentiment with | some s => s.category | none => "Neutral"
    let sentiment_polarity : ℚ :=
      match sentiment with | some s => s.polarity | none => 0
    let l1 : FLine :=
      if sentiment_category = "Negative" then .toneNegative
      else if sentiment_category = "Neutral" ∧ sentiment_polarity < 1/20 then
        .toneNeutral
      else .tonePositive
    let l2 : FLine :=
      if m.speaking_rate > 180 then .paceTooFast m.speaking_rate
      else if m.speaking_rate < 90 then .paceTooSlow m.speaking_rate
      else .paceBalanced m.speaking_rate
    let l3 : FLine :=
      if m.filler_ratio > 2/25 then .fillerHigh m.filler_ratio m.filler_count
      else if m.filler_ratio > 3/100 then .fillerModerate m.filler_ratio
      else .fillerFew
    let l4 : FLine :=
      if m.vocabulary_richness < 2/5 then .vocabMoreVariety
      else if m.vocabulary_richness > 7/10 then .vocabRich
      else .vocabGood
    let l5 : FLine := .sessionSummary m.word_count m.duration_seconds
    let body := [l1, l2, l3, l4, l5]
    let closing : FLine :=
      if 2 ≤ body.countP hasAffirmMarker then .closingSuccess
      else .closingPractice
    body ++ [closing]

/-- Outcome of the audio-processing block of `transcribe_audio`
(lines 101-132): a successful recognition, `sr.UnknownValueError`,
`sr.RequestError`, or any other exception. -/
inductive RecognitionOutcome where
  | success (transcript : String)
  | unknownValue
  | requestError (e : String)
  | otherError (e : String)
deriving DecidableEq

/-- `transcribe_audio` (lines 93-132).  `fs` models `os.path.exists`.
On a missing file the function returns the empty string without
touching the result record; each failure outcome stores its message in
`results['transcript']` and returns that stored value. -/
def transcribe_audio (fs : String → Bool) (outcome : RecognitionOutcome)
    (results : Results) (audio_file : String) : String × Results :=
  if !fs audio_file then ("", results)
  else
    match outcome with
    | .success transcript =>
      (transcript, { results with transcript := transcript })
    | .unknownValue =>
      let error_msg :=
        "Could not understand audio clearly. Please try with a clearer recording."
      (error_msg, { results with transcript := error_msg })
    | .requestError e =>
      let error_msg := "Speech recognition service error: " ++ e
      (error_msg, { results with transcript := error_msg })
    | .otherError e =>
      let error_msg := "Transcription failed: " ++ e
      (error_msg, { results with transcript := error_msg })

/-- `run_analysis_from_file` (lines 506-528).  A missing file raises
`FileNotFoundError("Audio file not found: " + audio_file)` which the
enclosing handler turns into `create_error_results(str(e))`; otherwise
the file is transcribed, analyzed and feedback is generated. -/
def run_analysis_from_file (fs : String → Bool)
    (outcome : RecognitionOutcome) (blob : String → ℚ × ℚ)
    (tokenize : String → List String) (stop_words : List String)
    (elapsed : Option ℚ) (results : Results) (audio_file : String) :
    Results :=
  if !fs audio_file then
    create_error_results ("Audio file not found: " ++ audio_file)
  else
    let tr := transcribe_audio fs outcome results audio_file
    let r1 := analyze_sentiment blob tokenize stop_words elapsed tr.2 (some tr.1)
    { r1 with feedback := generate_feedback r1.sentiment r1.metrics }

/-- The three-way category chain
`if p > 0.1 then Positive elif p < -0.1 then Negative else Neutral`
shared by both analysis paths, characterised by its thresholds. -/
theorem categoryChain_spec (p : ℚ) :
    ((if p > 1/10 then "Positive"
      else if p < -(1/10) then "Negative" else "Neutral") = "Positive" ↔
        p > 1/10) ∧
    ((if p > 1/10 then "Positive"
      else if p < -(1/10) then "Negative" else "Neutral") = "Negative" ↔
        p < -(1/10)) ∧
    ((if p > 1/10 then "Positive"
      else if p < -(1/10) then "Negative" else "Neutral") = "Neutral" ↔
        ¬(p > 1/10) ∧ ¬(p < -(1/10))) := by
  have hPN : ("Positive" : String) ≠ "Negative" := by decide
  have hPU : ("Positive" : String) ≠ "Neutral" := by decide
  have hNU : ("Negative" : String) ≠ "Neutral" := by decide
  by_cases h1 : p > 1/10 <;> by_cases h2 : p < -(1/10)
  · exact absurd (lt_trans h1 h2) (by norm_num)
  · refine ⟨?_, ?_, ?_⟩ <;> rw [if_pos h1]
    · exact iff_of_true rfl h1
    · exact iff_of_false hPN h2
    · exact iff_of_false hPU (fun hx => hx.1 h1)
  · refine ⟨?_, ?_, ?_⟩ <;> rw [if_neg h1, if_pos h2]
    · exact iff_of_false (Ne.symm hPN) h1
    · exact iff_of_true rfl h2
    · exact iff_of_false hNU (fun hx => hx.2 h2)
  · refine ⟨?_, ?_, ?_⟩ <;> rw [if_neg h1, if_neg h2]
    · exact iff_of_false (Ne.symm hPU) h1
    · exact iff_of_false (Ne.symm hNU) h2
    · exact iff_of_true rfl ⟨h1, h2⟩

/-- C1: in both the full path (`analyze_sentiment` on sufficient text)
and the live path (`analyze_live_sentiment` on a non-blank live
transcript) the stored category is Positive iff the backend polarity
exceeds 1/10, Negative iff it is below -1/10, and Neutral otherwise;
the boundary polarities 1/10 and -1/10 map to Neutral, and equal
polarities receive equal categories in the two paths. -/
theorem c1_category_thresholds (blob : String → ℚ × ℚ)
    (tokenize : String → List String) (stop_words : List String)
    (elapsed elapsedLive : Option ℚ) (results resultsLive : Results)
    (text live : String)
    (htext : ¬(text = "" ∨ (pyStrip text).length < 5))
    (hlive : ¬ pyStrip live = "") :
    ((analyze_sentiment blob tokenize stop_words elapsed results (some text)).sentiment =
        some { polarity := (blob text).1, subjectivity := (blob text).2,
               category := "Positive" } ↔ (blob text).1 > 1/10) ∧
    ((analyze_sentiment blob tokenize stop_words elapsed results (some text)).sentiment =
        some { polarity := (blob text).1, subjectivity := (blob text).2,
               category := "Negative" } ↔ (blob text).1 < -(1/10)) ∧
    ((analyze_sentiment blob tokenize stop_words elapsed results (some text)).sentiment =
        some { polarity := (blob text).1, subjectivity := (blob text).2,
               category := "Neutral" } ↔
          ¬((blob text).1 > 1/10) ∧ ¬((blob text).1 < -(1/10))) ∧
    ((blob text).1 = 1/10 →
      (analyze_sentiment blob tokenize stop_words elapsed results (some text)).sentiment =
        some { polarity := (blob text).1, subjectivity := (blob text).2,
               category := "Neutral" }) ∧
    ((blob text).1 = -(1/10) →
      (analyze_sentiment blob tokenize stop_words elapsed results (some text)).sentiment =
        some { polarity := (blob text).1, subjectivity := (blob text).2,
               category := "Neutral" }) ∧
    ((analyze_live_sentiment blob tokenize elapsedLive live resultsLive).live_sentiment =
        some { category := "Positive", polarity := (blob live).1 } ↔
          (blob live).1 > 1/10) ∧
    ((analyze_live_sentiment blob tokenize elapsedLive live resultsLive).live_sentiment =
        some { category := "Negative", polarity := (blob live).1 } ↔
          (blob live).1 < -(1/10)) ∧
    ((analyze_live_sentiment blob tokenize elapsedLive live resultsLive).live_sentiment =
        some { category := "Neutral", polarity := (blob live).1 } ↔
          ¬((blob live).1 > 1/10) ∧ ¬((blob live).1 < -(1/10))) ∧
    ((blob live).1 = 1/10 →
      (analyze_live_sentiment blob tokenize elapsedLive live resultsLive).live_sentiment =
        some { category := "Neutral", polarity := (blob live).1 }) ∧
    ((blob live).1 = -(1/10) →
      (analyze_live_sentiment blob tokenize elapsedLive live resultsLive).live_sentiment =
        some { category := "Neutral", polarity := (blob live).1 }) ∧
    ((blob text).1 = (blob live).1 →
      (analyze_sentiment blob tokenize stop_words elapsed results (some text)).sentiment.map
          (fun c => c.category) =
        (analyze_live_sentiment blob tokenize elapsedLive live
            resultsLive).live_sentiment.map (fun c => c.category)) := by
  have hfull :
      (analyze_sentiment blob tokenize stop_words elapsed results (some text)).sentiment =
        some { polarity := (blob text).1, subjectivity := (blob text).2,
               category := if (blob text).1 > 1/10 then "Positive"
                 else if (blob text).1 < -(1/10) then "Negative"
                 else "Neutral" } := by
    simp only [analyze_sentiment, if_neg htext]
  have hl :
      (analyze_live_sentiment blob tokenize elapsedLive live resultsLive).live_sentiment =
        some { category := if (blob live).1 > 1/10 then "Positive"
                 else if (blob live).1 < -(1/10) then "Negative"
                 else "Neutral",
               polarity := (blob live).1 } := by
    simp only [analyze_live_sentiment, if_neg hlive]
  have hc := categoryChain_spec (blob text).1
  have hcl := categoryChain_spec (blob live).1
  refine ⟨?_, ?_, ?_, ?_, ?_, ?_, ?_, ?_, ?_, ?_, ?_⟩
  · rw [hfull]
    simp only [Option.some.injEq, SentimentR.mk.injEq, true_and]
    exact hc.1
  · rw [hfull]
    simp only [Option.some.injEq, SentimentR.mk.injEq, true_and]
    exact hc.2.1
  · rw [hfull]
    simp only [Option.some.injEq, SentimentR.mk.injEq, true_and]
    exact hc.2.2
  · intro hp
    rw [hfull]
    simp only [Option.some.injEq, SentimentR.mk.injEq, true_and]
    exact hc.2.2.mpr ⟨by rw [hp]; norm_num, by rw [hp]; norm_num⟩
  · intro hp
    rw [hfull]
    simp only [Option.some.injEq, SentimentR.mk.injEq, true_and]
    exact hc.2.2.mpr ⟨by rw [hp]; norm_num, by rw [hp]; norm_num⟩
  · rw [hl]
    simp only [Option.some.injEq, LiveSentiment.mk.injEq, and_true]
    exact hcl.1
  · rw [hl]
    simp only [Option.some.injEq, LiveSentiment.mk.injEq, and_true]
    exact hcl.2.1
  · rw [hl]
    simp only [Option.some.injEq, LiveSentiment.mk.injEq, and_true]
    exact hcl.2.2
  · intro hp
    rw [hl]
    simp only [Option.some.injEq, LiveSentiment.mk.injEq, and_true]
    exact hcl.2.2.mpr ⟨by rw [hp]; norm_num, by rw [hp]; norm_num⟩
  · intro hp
    rw [hl]
    simp only [Option.some.injEq, LiveSentiment.mk.injEq, and_true]
    exact hcl.2.2.mpr ⟨by rw [hp]; norm_num, by rw [hp]; norm_num⟩
  · intro hp
    rw [hfull, hl, hp]
    rfl

/-- C1 witness: a backend returning polarity 1/5 makes both the full and
the live path store the category Positive for the text "good work". -/
theorem c1_category_thresholds_witness :
    (analyze_sentiment (fun _ => (1/5, 0)) (fun t => pySplitWs t) [] none
        initial_results (some "good work")).sentiment =
      some { polarity := 1/5, subjectivity := 0, category := "Positive" } ∧
    (analyze_live_sentiment (fun _ => (1/5, 0)) (fun t => pySplitWs t) none
        "good work" initial_results).live_sentiment =
      some { category := "Positive", polarity := 1/5 } := by
  have h := c1_category_thresholds (fun _ => ((1 : ℚ)/5, 0)) (fun t => pySplitWs t)
    [] none none initial_results initial_results "good work" "good work"
    (by decide) (by decide)
  exact ⟨h.1.mpr (by norm_num), h.2.2.2.2.2.1.mpr (by norm_num)⟩

/-- Shape of a feedback list made of one line per dimension followed by
the closing chosen from the affirming-line count of the body. -/
theorem feedback_shape_aux (l1 l2 l3 l4 l5 : FLine)
    (h1 : lineDim l1 = Dim.sentiment) (h2 : lineDim l2 = Dim.pace)
    (h3 : lineDim l3 = Dim.filler) (h4 : lineDim l4 = Dim.vocabulary)
    (h5 : lineDim l5 = Dim.summary) :
    ((([l1, l2, l3, l4, l5] : List FLine) ++
        [if 2 ≤ List.countP hasAffirmMarker [l1, l2, l3, l4, l5] then
          FLine.closingSuccess else FLine.closingPractice]).length = 6) ∧
    (([l1, l2, l3, l4, l5] ++
        [if 2 ≤ List.countP hasAffirmMarker [l1, l2, l3, l4, l5] then
          FLine.closingSuccess else FLine.closingPractice]).map lineDim =
      [Dim.sentiment, Dim.pace, Dim.filler, Dim.vocabulary, Dim.summary,
       Dim.closing]) ∧
    (([l1, l2, l3, l4, l5] ++
        [if 2 ≤ List.countP hasAffirmMarker [l1, l2, l3, l4, l5] then
          FLine.closingSuccess else FLine.closingPractice]).getLast? =
        some FLine.closingSuccess ↔
      2 ≤ (([l1, l2, l3, l4, l5] ++
        [if 2 ≤ List.countP hasAffirmMarker [l1, l2, l3, l4, l5] then
          FLine.closingSuccess else FLine.closingPractice]).take 5).countP
            hasAffirmMarker) ∧
    (([l1, l2, l3, l4, l5] ++
        [if 2 ≤ List.countP hasAffirmMarker [l1, l2, l3, l4, l5] then
          FLine.closingSuccess else FLine.closingPractice]).getLast? =
        some FLine.closingPractice ↔
      ¬ 2 ≤ (([l1, l2, l3, l4, l5] ++
        [if 2 ≤ List.countP hasAffirmMarker [l1, l2, l3, l4, l5] then
          FLine.closingSuccess else FLine.closingPractice]).take 5).countP
            hasAffirmMarker) := by
  by_cases hc : 2 ≤ List.countP hasAffirmMarker [l1, l2, l3, l4, l5]
  · rw [if_pos hc]
    refine ⟨rfl, ?_, ?_, ?_⟩
    · simp only [List.map_append, List.map_cons, List.map_nil, h1, h2, h3, h4, h5]
      rfl
    · exact iff_of_true rfl hc
    · refine iff_of_false ?_ (fun hn => hn hc)
      intro hx
      exact FLine.noConfusion (Option.some.inj hx)
  · rw [if_neg hc]
    refine ⟨rfl, ?_, ?_, ?_⟩
    · simp only [List.map_append, List.map_cons, List.map_nil, h1, h2, h3, h4, h5]
      rfl
    · refine iff_of_false ?_ hc
      intro hx
      exact FLine.noConfusion (Option.some.inj hx)
    · exact iff_of_true rfl hc

/-- C8: for every sentiment and metrics record, the feedback is exactly
six lines in the fixed order sentiment, pace, filler, vocabulary,
summary, closing; the closing line is the motivational success line
precisely when at least two of the preceding lines are the affirming
sentiment/pace/filler lines, and the encouragement-to-practice line
otherwise. -/
theorem c8_feedback_shape (s : SentimentR) (m : Metrics) :
    (generate_feedback (some s) (some m)).length = 6 ∧
    (generate_feedback (some s) (some m)).map lineDim =
      [Dim.sentiment, Dim.pace, Dim.filler, Dim.vocabulary, Dim.summary,
       Dim.closing] ∧
    ((generate_feedback (some s) (some m)).getLast? = some FLine.closingSuccess ↔
      2 ≤ ((generate_feedback (some s) (some m)).take 5).countP hasAffirmMarker) ∧
    ((generate_feedback (some s) (some m)).getLast? = some FLine.closingPractice ↔
      ¬ 2 ≤ ((generate_feedback (some s) (some m)).take 5).countP hasAffirmMarker) := by
  exact feedback_shape_aux
    (if s.category = "Negative" then .toneNegative
     else if s.category = "Neutral" ∧ s.polarity < 1/20 then .toneNeutral
     else .tonePositive)
    (if m.speaking_rate > 180 then .paceTooFast m.speaking_rate
     else if m.speaking_rate < 90 then .paceTooSlow m.speaking_rate
     else .paceBalanced m.speaking_rate)
    (if m.filler_ratio > 2/25 then .fillerHigh m.filler_ratio m.filler_count
     else if m.filler_ratio > 3/100 then .fillerModerate m.filler_ratio
     else .fillerFew)
    (if m.vocabulary_richness < 2/5 then .vocabMoreVariety
     else if m.vocabulary_richness > 7/10 then .vocabRich
     else .vocabGood)
    (.sessionSummary m.word_count m.duration_seconds)
    (by split_ifs <;> rfl) (by split_ifs <;> rfl) (by split_ifs <;> rfl)
    (by split_ifs <;> rfl) rfl

/-- A ratio of the form used for `vocabulary_richness` and
`filler_ratio` stays within the unit interval whenever the numerator is
bounded by the denominator. -/
theorem guardedRatio_bounds (u c : Nat) (h : u ≤ c) :
    (0 : ℚ) ≤ (if c > 0 then (u : ℚ) / (c : ℚ) else 0) ∧
      (if c > 0 then (u : ℚ) / (c : ℚ) else 0) ≤ 1 := by
  split_ifs with h0
  · constructor
    · positivity
    · rw [div_le_one (by exact_mod_cast h0)]
      exact_mod_cast h
  · exact ⟨le_refl 0, zero_le_one⟩

/-- C2 counterexample: the basic-metrics fallback on the text "hello"
has one content word and one unique word, yet stores a vocabulary
richness of 1/2 instead of 1/1 — it fixes the value at 0.5 regardless
of the token counts. -/
theorem c2_counterexample :
    ¬((calculate_basic_metrics "hello").content_words > 0 →
      (calculate_basic_metrics "hello").vocabulary_richness =
        ((calculate_basic_metrics "hello").unique_words : ℚ) /
          ((calculate_basic_metrics "hello").content_words : ℚ)) := by
  intro h
  have h1 : (calculate_basic_metrics "hello").content_words = 1 := by decide
  have h2 : (calculate_basic_metrics "hello").unique_words = 1 := by decide
  have h3 : (calculate_basic_metrics "hello").vocabulary_richness = 1/2 := rfl
  have h4 := h (by rw [h1]; norm_num)
  rw [h1, h2, h3] at h4
  norm_num at h4

/-- C2 (amended): after the full `calculate_metrics`,
`vocabulary_richness = unique_words / content_words` when
`content_words > 0` and `0` otherwise, and it lies in [0,1]; the
basic-metrics fallback instead stores the fixed value 1/2, which also
lies in [0,1]. -/
theorem c2_vocabulary_richness (tokenize : String → List String)
    (stop_words : List String) (elapsed : Option ℚ) (text btext : String) :
    ((calculate_metrics tokenize stop_words elapsed text).content_words > 0 →
      (calculate_metrics tokenize stop_words elapsed text).vocabulary_richness =
        ((calculate_metrics tokenize stop_words elapsed text).unique_words : ℚ) /
          ((calculate_metrics tokenize stop_words elapsed text).content_words : ℚ)) ∧
    ((calculate_metrics tokenize stop_words elapsed text).content_words = 0 →
      (calculate_metrics tokenize stop_words elapsed text).vocabulary_richness = 0) ∧
    (0 : ℚ) ≤ (calculate_metrics tokenize stop_words elapsed text).vocabulary_richness ∧
    (calculate_metrics tokenize stop_words elapsed text).vocabulary_richness ≤ 1 ∧
    (calculate_basic_metrics btext).vocabulary_richness = 1/2 ∧
    (0 : ℚ) ≤ (calculate_basic_metrics btext).vocabulary_richness ∧
    (calculate_basic_metrics btext).vocabulary_richness ≤ 1 := by
  have hb :=
    guardedRatio_bounds
      (((safe_tokenize tokenize text).filter (fun w =>
          !(stop_words.contains (pyLower w)) && pyIsAlpha w
            && decide (w.length > 2))).map pyLower).dedup.length
      (((safe_tokenize tokenize text).filter (fun w =>
          !(stop_words.contains (pyLower w)) && pyIsAlpha w
            && decide (w.length > 2))).map pyLower).length
      (List.Sublist.length_le (List.dedup_sublist _))
  refine ⟨?_, ?_, ?_, ?_, rfl, by norm_num [calculate_basic_metrics],
    by norm_num [calculate_basic_metrics]⟩
  · intro h
    simp only [calculate_metrics] at h ⊢
    rw [if_pos h]
  · intro h
    simp only [calculate_metrics] at h ⊢
    rw [if_neg (by omega)]
  · simp only [calculate_metrics]
    exact hb.1
  · simp only [calculate_metrics]
    exact hb.2

/-- C2 witness: on the concrete text "big big dog" with a whitespace
tokenizer and no stopwords there are three content words, two of them
distinct, and the stored richness is 2/3. -/
theorem c2_vocabulary_richness_witness :
    (calculate_metrics (fun t => pySplitWs t) [] none "big big dog").vocabulary_richness
      = 2/3 ∧
    (calculate_basic_metrics "hello").vocabulary_richness = 1/2 := by
  have h := c2_vocabulary_richness (fun t => pySplitWs t) [] none "big big dog" "hello"
  have hc : (calculate_metrics (fun t => pySplitWs t) [] none "big big dog").content_words
      = 3 := by decide
  have hu : (calculate_metrics (fun t => pySplitWs t) [] none "big big dog").unique_words
      = 2 := by decide
  refine ⟨?_, h.2.2.2.2.1⟩
  rw [h.1 (by rw [hc]; norm_num), hc, hu]
  norm_num

/-- C4: the duration stored by `calculate_metrics` is
`max elapsed (word_count / 2.5)` when a session start timestamp is
known and `max 60 (word_count / 2.5)` otherwise, and the stored
speaking rate is `(word_count / duration) * 60` when the duration is
positive and `0` otherwise. -/
theorem c4_duration_policy (tokenize : String → List String)
    (stop_words : List String) (text : String) (e : ℚ) :
    (calculate_metrics tokenize stop_words (some e) text).duration_seconds =
      max e (((calculate_metrics tokenize stop_words (some e) text).word_count : ℚ) / (5/2)) ∧
    (calculate_metrics tokenize stop_words none text).duration_seconds =
      max 60 (((calculate_metrics tokenize stop_words none text).word_count : ℚ) / (5/2)) ∧
    ((calculate_metrics tokenize stop_words (some e) text).duration_seconds > 0 →
      (calculate_metrics tokenize stop_words (some e) text).speaking_rate =
        (((calculate_metrics tokenize stop_words (some e) text).word_count : ℚ) /
          (calculate_metrics tokenize stop_words (some e) text).duration_seconds) * 60) ∧
    (¬ (calculate_metrics tokenize stop_words (some e) text).duration_seconds > 0 →
      (calculate_metrics tokenize stop_words (some e) text).speaking_rate = 0) ∧
    ((calculate_metrics tokenize stop_words none text).duration_seconds > 0 →
      (calculate_metrics tokenize stop_words none text).speaking_rate =
        (((calculate_metrics tokenize stop_words none text).word_count : ℚ) /
          (calculate_metrics tokenize stop_words none text).duration_seconds) * 60) ∧
    (¬ (calculate_metrics tokenize stop_words none text).duration_seconds > 0 →
      (calculate_metrics tokenize stop_words none text).speaking_rate = 0) := by
  refine ⟨rfl, rfl, ?_, ?_, ?_, ?_⟩ <;>
    · intro h
      simp only [calculate_metrics] at h ⊢
      first
        | rw [if_pos h]
        | rw [if_neg h]

/-- C4 witness: with an empty token sequence and a known elapsed time of
100 seconds the stored duration is 100 and the speaking rate is 0
(0 words over a positive duration); with no known start the duration is
the 60-second floor. -/
theorem c4_duration_policy_witness :
    (calculate_metrics (fun _ => []) [] (some 100) "x").duration_seconds = 100 ∧
    (calculate_metrics (fun _ => []) [] (some 100) "x").speaking_rate = 0 ∧
    (calculate_metrics (fun _ => []) [] none "x").duration_seconds = 60 := by
  have h := c4_duration_policy (fun _ => []) [] "x" 100
  have hw : ((calculate_metrics (fun _ => []) [] (some 100) "x").word_count : ℚ) = 0 := by
    norm_num [calculate_metrics, safe_tokenize]
  have hw0 : ((calculate_metrics (fun _ => []) [] none "x").word_count : ℚ) = 0 := by
    norm_num [calculate_metrics, safe_tokenize]
  have hd : (calculate_metrics (fun _ => []) [] (some 100) "x").duration_seconds = 100 := by
    rw [h.1, hw]
    norm_num
  refine ⟨hd, ?_, ?_⟩
  · rw [h.2.2.1 (by rw [hd]; norm_num), hw]
    norm_num
  · rw [h.2.1, hw0]
    norm_num

/-- C5: in every full metrics record,
`filler_ratio = filler_count / word_count` when `word_count > 0` (and
then lies in [0,1] since fillers are a subset of the tokens), and
`filler_ratio = 0` when `word_count = 0`. -/
theorem c5_filler_ratio (tokenize : String → List String)
    (stop_words : List String) (elapsed : Option ℚ) (text : String) :
    ((calculate_metrics tokenize stop_words elapsed text).word_count > 0 →
      (calculate_metrics tokenize stop_words elapsed text).filler_ratio =
        ((calculate_metrics tokenize stop_words elapsed text).filler_count : ℚ) /
          ((calculate_metrics tokenize stop_words elapsed text).word_count : ℚ)) ∧
    (0 : ℚ) ≤ (calculate_metrics tokenize stop_words elapsed text).filler_ratio ∧
    (calculate_metrics tokenize stop_words elapsed text).filler_ratio ≤ 1 ∧
    ((calculate_metrics tokenize stop_words elapsed text).word_count = 0 →
      (calculate_metrics tokenize stop_words elapsed text).filler_ratio = 0) := by
  have hb :=
    guardedRatio_bounds ((safe_tokenize tokenize text).countP isFillerToken)
      (safe_tokenize tokenize text).length (List.countP_le_length _)
  refine ⟨?_, ?_, ?_, ?_⟩
  · intro h
    simp only [calculate_metrics] at h ⊢
    rw [if_pos h]
  · simp only [calculate_metrics]
    exact hb.1
  · simp only [calculate_metrics]
    exact hb.2
  · intro h
    simp only [calculate_metrics] at h ⊢
    rw [if_neg (by omega)]

/-- C5 witness: in "um, nice work" with a whitespace tokenizer one of
the three tokens is a filler, so the stored ratio is 1/3. -/
theorem c5_filler_ratio_witness :
    (calculate_metrics (fun t => pySplitWs t) [] none "um, nice work").filler_ratio
      = 1/3 := by
  have h := c5_filler_ratio (fun t => pySplitWs t) [] none "um, nice work"
  have hw : (calculate_metrics (fun t => pySplitWs t) [] none "um, nice work").word_count
      = 3 := by decide
  have hf : (calculate_metrics (fun t => pySplitWs t) [] none "um, nice work").filler_count
      = 1 := by decide
  rw [h.1 (by rw [hw]; norm_num), hw, hf]
  norm_num

/-- C7: on input that is empty or shorter than five characters after
trimming, `analyze_sentiment` stores the neutral default sentiment and
the basic-metrics fallback of the (possibly empty) text, and the result
does not depend on the sentiment backend — the backend is not
invoked. -/
theorem c7_short_text (blob blob2 : String → ℚ × ℚ)
    (tokenize : String → List String) (stop_words : List String)
    (elapsed : Option ℚ) (results : Results) (text : String)
    (h : text = "" ∨ (pyStrip text).length < 5) :
    analyze_sentiment blob tokenize stop_words elapsed results (some text) =
      { results with
          sentiment := some neutral_sentiment
          metrics := some (calculate_basic_metrics text) } ∧
    analyze_sentiment blob tokenize stop_words elapsed results (some text) =
      analyze_sentiment blob2 tokenize stop_words elapsed results (some text) ∧
    neutral_sentiment =
      { polarity := 0, subjectivity := 1/2, category := "Neutral" } := by
  have he : analyze_sentiment blob tokenize stop_words elapsed results (some text) =
      { results with
          sentiment := some neutral_sentiment
          metrics := some (calculate_basic_metrics text) } := by
    simp only [analyze_sentiment, if_pos h]
  have he2 : analyze_sentiment blob2 tokenize stop_words elapsed results (some text) =
      { results with
          sentiment := some neutral_sentiment
          metrics := some (calculate_basic_metrics text) } := by
    simp only [analyze_sentiment, if_pos h]
  exact ⟨he, he.trans he2.symm, rfl⟩

/-- C7 witness: the short text "hi" (two characters after trimming)
takes the neutral short-circuit, with two different backends yielding
the same result. -/
theorem c7_short_text_witness :
    analyze_sentiment (fun _ => (1, 1)) (fun t => pySplitWs t) [] none
        initial_results (some "hi") =
      { initial_results with
          sentiment := some neutral_sentiment
          metrics := some (calculate_basic_metrics "hi") } ∧
    analyze_sentiment (fun _ => (1, 1)) (fun t => pySplitWs t) [] none
        initial_results (some "hi") =
      analyze_sentiment (fun _ => (-1, 0)) (fun t => pySplitWs t) [] none
        initial_results (some "hi") := by
  have h := c7_short_text (fun _ => (1, 1)) (fun _ => (-1, 0))
    (fun t => pySplitWs t) [] none initial_results "hi" (by decide)
  exact ⟨h.1, h.2.1⟩

/-- C3 counterexample: the error result for a failed session does not
satisfy `sentence_count >= 1` — `create_error_results` stores the
all-zero `error_metrics`, whose `sentence_count` is `0`. -/
theorem c3_counterexample :
    (create_error_results "boom").metrics = some error_metrics ∧
      error_metrics.sentence_count = 0 :=
  ⟨rfl, rfl⟩

/-- C3 (amended): every metrics record produced by `calculate_metrics`
or by `calculate_basic_metrics` has `sentence_count >= 1`; the error
result of a failed session instead stores the all-zero metrics with
`sentence_count = 0`. -/
theorem c3_sentence_count (tokenize : String → List String)
    (stop_words : List String) (elapsed : Option ℚ) (text btext msg : String) :
    1 ≤ (calculate_metrics tokenize stop_words elapsed text).sentence_count ∧
    1 ≤ (calculate_basic_metrics btext).sentence_count ∧
    (create_error_results msg).metrics = some error_metrics ∧
    error_metrics.sentence_count = 0 := by
  refine ⟨?_, ?_, rfl, rfl⟩
  · simp only [calculate_metrics]
    exact le_max_left 1 _
  · simp only [calculate_basic_metrics]
    split
    · exact le_max_left 1 _
    · exact le_refl 1

/-- C6 counterexample: the code counts the token ".um" as a filler
(Python `strip` removes the punctuation from both ends, so ".um"
becomes "um"), while the claimed rule — strip only TRAILING
punctuation — leaves ".um", which is not in the lexicon.  Hence the
stored `filler_count` differs from the count the claim describes. -/
theorem c6_counterexample :
    (calculate_metrics (fun t => [t]) [] none ".um").filler_count ≠
      List.countP specFillerToken (safe_tokenize (fun t => [t]) ".um") := by
  decide

/-- C6 (amended): for every token sequence, both `calculate_metrics` and
`analyze_live_sentiment` store as `filler_count` the number of tokens
whose case-folded form, after stripping the punctuation characters
`.,!?` from BOTH ends, is an exact member of the fixed filler lexicon;
punctuation elsewhere in a token is not removed. -/
theorem c6_filler_lexicon (blob : String → ℚ × ℚ)
    (tokenize : String → List String) (stop_words : List String)
    (elapsed elapsedLive : Option ℚ) (text live : String) (results : Results)
    (hlive : ¬ pyStrip live = "") :
    (calculate_metrics tokenize stop_words elapsed text).filler_count =
      (safe_tokenize tokenize text).countP
        (fun w => filler_words.contains (pyStripChars fillerStripChars (pyLower w))) ∧
    (analyze_live_sentiment blob tokenize elapsedLive live results).live_metrics.map
        (fun lm => lm.filler_count) =
      some ((safe_tokenize tokenize live).countP
        (fun w => filler_words.contains (pyStripChars fillerStripChars (pyLower w)))) := by
  constructor
  · rfl
  · simp only [analyze_live_sentiment, if_neg hlive]
    rfl

/-- C6 witness: the amended rule evaluated on concrete inputs — in
"Um, well then." the tokens "um," and "well" are fillers, and the live
path counts the single filler of "okay". -/
theorem c6_filler_witness :
    (calculate_metrics (fun t => pySplitWs t) [] none "Um, well then.").filler_count = 2 ∧
    (analyze_live_sentiment (fun _ => (0, 0)) (fun t => pySplitWs t) none "okay"
        initial_results).live_metrics.map (fun lm => lm.filler_count) = some 1 := by
  have h := c6_filler_lexicon (fun _ => (0, 0)) (fun t => pySplitWs t) [] none none
    "Um, well then." "okay" initial_results (by decide)
  exact ⟨h.1.trans (by decide), h.2.trans (by decide)⟩

/-- C9: for a nonexistent file path, `run_analysis_from_file` yields the
error result: a transcript carrying the failure description, the
neutral default sentiment, the all-zero error metrics, and non-empty
feedback. -/
theorem c9_missing_file (fs : String → Bool) (outcome : RecognitionOutcome)
    (blob : String → ℚ × ℚ) (tokenize : String → List String)
    (stop_words : List String) (elapsed : Option ℚ) (results : Results)
    (audio_file : String) (h : fs audio_file = false) :
    run_analysis_from_file fs outcome blob tokenize stop_words elapsed results
        audio_file =
      create_error_results ("Audio file not found: " ++ audio_file) ∧
    (run_analysis_from_file fs outcome blob tokenize stop_words elapsed results
        audio_file).transcript =
      "Analysis failed: Audio file not found: " ++ audio_file ∧
    (run_analysis_from_file fs outcome blob tokenize stop_words elapsed results
        audio_file).sentiment = some neutral_sentiment ∧
    (run_analysis_from_file fs outcome blob tokenize stop_words elapsed results
        audio_file).metrics =
      some { word_count := 0, speaking_rate := 0, filler_count := 0,
             filler_ratio := 0, avg_sentence_length := 0,
             vocabulary_richness := 0, duration_seconds := 0,
             sentence_count := 0, unique_words := 0, content_words := 0 } ∧
    (run_analysis_from_file fs outcome blob tokenize stop_words elapsed results
        audio_file).feedback ≠ [] := by
  have hrun : run_analysis_from_file fs outcome blob tokenize stop_words elapsed
      results audio_file =
      create_error_results ("Audio file not found: " ++ audio_file) := by
    simp only [run_analysis_from_file, h]
    simp
  refine ⟨hrun, ?_, ?_, ?_, ?_⟩
  · rw [hrun]
    show "Analysis failed: " ++ ("Audio file not found: " ++ audio_file) = _
    rw [← String.append_assoc]
    rfl
  · rw [hrun]; rfl
  · rw [hrun]; rfl
  · rw [hrun]; simp [create_error_results]

/-- C9 witness: the missing-file theorem applied to a concrete absent
file. -/
theorem c9_missing_file_witness :
    (run_analysis_from_file (fun _ => false) .unknownValue (fun _ => (0, 0))
        (fun t => pySplitWs t) [] none initial_results "ghost.wav").transcript =
      "Analysis failed: Audio file not found: ghost.wav" ∧
    (run_analysis_from_file (fun _ => false) .unknownValue (fun _ => (0, 0))
        (fun t => pySplitWs t) [] none initial_results "ghost.wav").metrics =
      some error_metrics := by
  have h := c9_missing_file (fun _ => false) .unknownValue (fun _ => (0, 0))
    (fun t => pySplitWs t) [] none initial_results "ghost.wav" rfl
  exact ⟨h.2.1.trans (by decide), h.2.2.2.1⟩

/-- C10: `transcribe_audio` on a nonexistent file returns the empty
string and leaves the whole result record unchanged; each failure
outcome (unintelligible audio, service error, any other exception)
writes its human-readable message into the transcript field and
returns that same message. -/
theorem c10_transcribe_audio (fs : String → Bool) (r : Results)
    (audio_file e : String) :
    (fs audio_file = false →
      ∀ outcome, transcribe_audio fs outcome r audio_file = ("", r)) ∧
    (fs audio_file = true →
      transcribe_audio fs .unknownValue r audio_file =
        ("Could not understand audio clearly. Please try with a clearer recording.",
         { r with transcript :=
             "Could not understand audio clearly. Please try with a clearer recording." }) ∧
      transcribe_audio fs (.requestError e) r audio_file =
        ("Speech recognition service error: " ++ e,
         { r with transcript := "Speech recognition service error: " ++ e }) ∧
      transcribe_audio fs (.otherError e) r audio_file =
        ("Transcription failed: " ++ e,
         { r with transcript := "Transcription failed: " ++ e })) := by
  constructor
  · intro h outcome
    simp only [transcribe_audio, h]
    rfl
  · intro h
    refine ⟨?_, ?_, ?_⟩ <;> simp only [transcribe_audio, h] <;> rfl

/-- C10 witness: the frame property on a missing file and the message
written on a service error, at concrete inputs. -/
theorem c10_transcribe_audio_witness :
    transcribe_audio (fun _ => false) .unknownValue initial_results "ghost.wav" =
      ("", initial_results) ∧
    transcribe_audio (fun _ => true) (.requestError "quota") initial_results
        "talk.wav" =
      ("Speech recognition service error: quota",
       { initial_results with
           transcript := "Speech recognition service error: quota" }) := by
  have h1 := c10_transcribe_audio (fun _ => false) initial_results "ghost.wav" "quota"
  have h2 := c10_transcribe_audio (fun _ => true) initial_results "talk.wav" "quota"
  exact ⟨h1.1 rfl .unknownValue, (h2.2 rfl).2.1⟩

end LSA
